import Mathlib

/-!
Shallow embedding of the HamClock alert core (Rust sources under
`src/rust-src/src`), covering the data model (`data/models.rs`), the alert
detector (`data/alerts.rs`), the response cache (`data/cache.rs`), the
distribution channels (`phase9/mod.rs`) and the alert history store
(`phase9/history.rs`).

Modelling conventions:
* `chrono::DateTime<Utc>` instants and `chrono::Duration` values are modelled
  as integer milliseconds (`Timestamp := Int`); `DateTime::timestamp()` is
  floor division by 1000, `Duration::num_minutes()` is division by 60000
  truncating toward zero (chrono's convention), `Duration::seconds(s)` is
  `1000 * s`.
* `f32` telemetry values (Kp, frequency, elevation, ...) are modelled as `ℚ`;
  all comparisons performed by the code on them are order comparisons and
  subtraction, which `ℚ` reproduces exactly at the values considered here.
* Rust numeric formatting (`{:.k}`) is modelled by rounding to the nearest
  multiple of `10^-k`; this agrees with Rust at every value evaluated in this
  development (values exactly representable at the printed precision).
* side-effecting calls that do not touch the modelled state
  (`audio_alerter.play_alert`, logging) are omitted.
-/

attribute [local semireducible] Rat.mul Rat.add Rat.sub Rat.inv Rat.ofScientific

namespace HamClock

/-- Instants and durations in integer milliseconds. -/
abbrev Timestamp := Int

/-- `DateTime::timestamp()`: whole seconds since the epoch (floor). -/
def timestampSecs (t : Timestamp) : Int := Int.ediv t 1000

/-- `chrono::Duration::num_minutes()`: whole minutes, truncating toward zero. -/
def durationNumMinutes (d : Int) : Int := Int.tdiv d 60000

/-- `u64 as i64` (two's-complement wrap), for `duration_seconds as i64`
in `Alert::new`. -/
def u64AsI64 (d : Nat) : Int := if d < 2 ^ 63 then (d : Int) else (d : Int) - 2 ^ 64

/-- `AlertSeverity` from `data/models.rs` (ordered `Info < ... < Emergency`). -/
inductive AlertSeverity where
  | Info
  | Notice
  | Warning
  | Critical
  | Emergency
deriving DecidableEq, Repr

/-- `{:?}` (Debug) rendering of `AlertSeverity`. -/
def AlertSeverity.debugStr : AlertSeverity → String
  | .Info => "Info"
  | .Notice => "Notice"
  | .Warning => "Warning"
  | .Critical => "Critical"
  | .Emergency => "Emergency"

/-- `AlertType` from `data/models.rs`. -/
inductive AlertType where
  | DxSpot
  | SatellitePass
  | KpSpike
  | XrayFlare
  | Aurora
  | Cme
deriving DecidableEq, Repr

/-- `{:?}` (Debug) rendering of `AlertType`, as used in alert ids and
history rows. -/
def AlertType.debugStr : AlertType → String
  | .DxSpot => "DxSpot"
  | .SatellitePass => "SatellitePass"
  | .KpSpike => "KpSpike"
  | .XrayFlare => "XrayFlare"
  | .Aurora => "Aurora"
  | .Cme => "Cme"

/-- `Alert` from `data/models.rs`. -/
structure Alert where
  id : String
  alert_type : AlertType
  severity : AlertSeverity
  message : String
  created_at : Timestamp
  expires_at : Timestamp
  acknowledged : Bool
deriving DecidableEq, Repr

/-- `Alert::new` from `data/models.rs`; `now` is the instant `Utc::now()`
returns. `id = format!("{:?}-{}", alert_type, now.timestamp())` and
`expires_at = now + Duration::seconds(duration_seconds as i64)`. -/
def Alert.new (alert_type : AlertType) (severity : AlertSeverity) (message : String)
    (duration_seconds : Nat) (now : Timestamp) : Alert :=
  { id := alert_type.debugStr ++ "-" ++ toString (timestampSecs now)
    alert_type := alert_type
    severity := severity
    message := message
    created_at := now
    expires_at := now + 1000 * u64AsI64 duration_seconds
    acknowledged := false }

/-- `Alert::is_expired` (`Utc::now() > self.expires_at`), with the current
instant passed explicitly. -/
def Alert.is_expired (a : Alert) (now : Timestamp) : Bool :=
  decide (a.expires_at < now)

/-- `Alert::is_active` (`!is_expired && !acknowledged`). -/
def Alert.is_active (a : Alert) (now : Timestamp) : Bool :=
  !a.is_expired now && !a.acknowledged

/-- `AlertState` from `data/models.rs`. The `last_flux` / `last_ap` baselines
are read/written by `check_space_weather_alerts` in `data/alerts.rs` (they are
referenced there as fields of `alert_state`), so they are part of the state.
The `HashMap<String, f32>` of last elevations is modelled as an association
list where lookup takes the most recently inserted binding. -/
structure AlertState where
  active_alerts : List Alert := []
  last_kp : ℚ := 0
  last_dx_spots : List String := []
  last_satellite_elevations : List (String × ℚ) := []
  last_xray_class : String := ""
  last_flux : Int := 0
  last_ap : Int := 0
deriving DecidableEq, Repr

/-- `AlertState::new` (`Default::default()`). -/
def AlertState.new : AlertState := {}

/-- `AlertState::cleanup_expired`: retain only active alerts. -/
def AlertState.cleanup_expired (now : Timestamp) (st : AlertState) : AlertState :=
  { st with active_alerts := st.active_alerts.filter (·.is_active now) }

/-- `AlertState::add_alert`: drop the candidate if a same-type, still-active
alert was created within the dedup window, else push it. -/
def AlertState.add_alert (now : Timestamp) (alert : Alert) (st : AlertState) : AlertState :=
  let is_duplicate := st.active_alerts.any (fun a =>
    a.alert_type == alert.alert_type &&
    a.is_active now &&
    decide (durationNumMinutes (alert.created_at - a.created_at) < 5))
  if is_duplicate then st
  else { st with active_alerts := st.active_alerts ++ [alert] }

/-- Mark one alert acknowledged. -/
def ackAlert (a : Alert) : Alert := { a with acknowledged := true }

/-- Modelled from the spec: `acknowledge_latest()` marks the most recently
added alert acknowledged. (`main.rs` calls `AlertState::acknowledge_latest`
but no implementation appears in `data/models.rs` under `src/`.) -/
def AlertState.acknowledge_latest (st : AlertState) : AlertState :=
  { st with active_alerts :=
      st.active_alerts.dropLast ++ (st.active_alerts.getLast?.map ackAlert).toList }

/-- Modelled from the spec: `acknowledge_all()` marks all alerts acknowledged.
(`main.rs` calls `AlertState::acknowledge_all` but no implementation appears
in `data/models.rs` under `src/`.) -/
def AlertState.acknowledge_all (st : AlertState) : AlertState :=
  { st with active_alerts := st.active_alerts.map ackAlert }

/-- Zero-pad a digit string on the left to width `k`. -/
def padZeros (k : Nat) (s : String) : String :=
  String.mk (List.replicate (k - s.length) '0') ++ s

/-- Round a rational to the nearest integer (⌊q + 1/2⌋, computed directly on
the numerator and denominator). -/
def roundQ (q : ℚ) : Int := Int.ediv (2 * q.num + (q.den : Int)) (2 * (q.den : Int))

/-- Rust `{:.k}` fixed-point formatting of a rational (round to nearest;
exact at every value formatted in this development). -/
def fmtFixed (k : Nat) (q : ℚ) : String :=
  let n : Int := roundQ (q * (10 ^ k : ℚ))
  let sign := if n < 0 then "-" else ""
  let m : Nat := n.natAbs
  if k = 0 then sign ++ toString m
  else sign ++ toString (m / 10 ^ k) ++ "." ++ padZeros k (toString (m % 10 ^ k))

/-- Rust `str::to_uppercase`, character by character (`Char.toUpper` maps
a-z to A-Z and fixes every other character; all strings compared by this
program are ASCII). -/
def strToUpper (s : String) : String := ⟨s.data.map Char.toUpper⟩

/-- Substring test on character lists (`str::contains`). -/
def charsContain (needle : List Char) : List Char → Bool
  | [] => needle.isEmpty
  | c :: rest => List.isPrefixOf needle (c :: rest) || charsContain needle rest

/-- Rust `haystack.contains(needle)` substring containment. -/
def strContains (hay needle : String) : Bool :=
  charsContain needle.data hay.data

/-- Value of a digit list (most significant first). -/
def digitsToNat (ds : List Char) : Nat :=
  ds.foldl (fun acc c => 10 * acc + (c.toNat - 48)) 0

/-- Rust `s.parse::<i32>().unwrap_or(0)`: optional sign followed by digits,
within the i32 range, else 0. On the values reachable for
`last_xray_class` (`""`, `"B"`, `"C"`, `"M"`, `"X"`) parsing always fails
and the result is 0. -/
def parseI32Or0 (s : String) : Int :=
  let core : List Char → Option Nat := fun ds =>
    if ds.isEmpty then none
    else if ds.all Char.isDigit then some (digitsToNat ds) else none
  match s.data with
  | '+' :: rest =>
    match core rest with
    | some n => if n ≤ 2147483647 then (n : Int) else 0
    | none => 0
  | '-' :: rest =>
    match core rest with
    | some n => if n ≤ 2147483648 then -(n : Int) else 0
    | none => 0
  | ds =>
    match core ds with
    | some n => if n ≤ 2147483647 then (n : Int) else 0
    | none => 0

/-- `SpaceWeather` from `data/models.rs` (the `updated` field is unused by
the detector and cache logic and is omitted). -/
structure SpaceWeather where
  kp : ℚ := 0
  a : Int := 0
  ap : Int := 0
  flux : Int := 0
deriving DecidableEq, Repr

/-- `DxSpot` from `data/models.rs` (the `time` field is unused by the
detector and is omitted). -/
structure DxSpot where
  frequency : ℚ
  callsign : String
  spotter : String
  mode : String
deriving DecidableEq, Repr

/-- `SatelliteData` from `data/models.rs` (`doppler_shift` unused, omitted). -/
structure SatelliteData where
  name : String
  elevation : ℚ
  azimuth : ℚ
  range : ℚ
deriving DecidableEq, Repr

/-- `Forecast` from `data/models.rs`. -/
structure Forecast where
  date : String
  temp_high : Int
  temp_low : Int
  conditions : String
  humidity : Int
deriving DecidableEq, Repr

/-- `AlertConfig` from `config.rs` (fields consumed by the detector;
`aurora_alert_level`, `alert_flash_enabled` and `audio_alerts_enabled` are
never read by the alert logic modelled here). -/
structure AlertConfig where
  dx_alerts_enabled : Bool
  watched_bands : List ℚ
  watched_modes : List String
  dx_min_frequency : Option ℚ
  dx_max_frequency : Option ℚ
  satellite_alerts_enabled : Bool
  satellite_elevation_threshold : ℚ
  watched_satellites : List String
  satellite_countdown_enabled : Bool
  space_weather_alerts_enabled : Bool
  kp_alert_threshold : ℚ
  kp_spike_threshold : ℚ
  xray_alert_classes : List String
  cme_alerts_enabled : Bool
  alert_duration_seconds : Nat
deriving DecidableEq, Repr

/-- `AlertConfig::default()` from `config.rs`. -/
def AlertConfig.default : AlertConfig :=
  { dx_alerts_enabled := true
    watched_bands := [14074/1000, 7074/1000, 3573/1000]
    watched_modes := ["FT8", "CW"]
    dx_min_frequency := none
    dx_max_frequency := none
    satellite_alerts_enabled := true
    satellite_elevation_threshold := 30
    watched_satellites := ["ISS", "SO-50"]
    satellite_countdown_enabled := true
    space_weather_alerts_enabled := true
    kp_alert_threshold := 5
    kp_spike_threshold := 2
    xray_alert_classes := ["M", "X"]
    cme_alerts_enabled := true
    alert_duration_seconds := 30 }

/-- The telemetry part of `AppData` read by `detect_alerts` (its
`alert_state` component is threaded separately as explicit state). -/
structure AppSnapshot where
  space_weather : SpaceWeather := {}
  dx_spots : List DxSpot := []
  satellites : List SatelliteData := []
deriving DecidableEq, Repr

/-- Result of one detector run: the updated ledger state, the candidate
alerts constructed by `Alert::new` (in program order), and the alerts passed
to `distribute_alert` (in program order). -/
structure DetectOut where
  state : AlertState
  produced : List Alert
  distributed : List Alert
deriving DecidableEq, Repr

/-- The per-spot match condition of `check_dx_alerts`
(`(is_watched_band || is_watched_mode) && in_range`). -/
def dxSpotMatches (cfg : AlertConfig) (spot : DxSpot) : Bool :=
  let is_watched_band := cfg.watched_bands.any (fun freq =>
    decide (|spot.frequency - freq| < 1/100))
  let is_watched_mode := cfg.watched_modes.any (fun mode =>
    strContains (strToUpper spot.mode) (strToUpper mode))
  let in_range :=
    match cfg.dx_min_frequency, cfg.dx_max_frequency with
    | some mn, some mx => decide (mn ≤ spot.frequency) && decide (spot.frequency ≤ mx)
    | some mn, none => decide (mn ≤ spot.frequency)
    | none, some mx => decide (spot.frequency ≤ mx)
    | none, none => true
  (is_watched_band || is_watched_mode) && in_range

/-- The DX alert message
(`"NEW DX: {:.3} MHz {} {} by {}"`). -/
def dxSpotMessage (spot : DxSpot) : String :=
  "NEW DX: " ++ fmtFixed 3 spot.frequency ++ " MHz " ++ spot.mode ++ " " ++
    spot.callsign ++ " by " ++ spot.spotter

/-- The alert built for a matching DX spot. -/
def dxAlert (cfg : AlertConfig) (now : Timestamp) (spot : DxSpot) : Alert :=
  Alert.new .DxSpot .Notice (dxSpotMessage spot) cfg.alert_duration_seconds now

/-- The `for spot in &app_data.dx_spots` loop of `check_dx_alerts`. -/
def dxLoop (cfg : AlertConfig) (now : Timestamp) :
    List DxSpot → AlertState → AlertState × List Alert × List Alert
  | [], st => (st, [], [])
  | spot :: rest, st =>
    if st.last_dx_spots.contains spot.callsign then
      dxLoop cfg now rest st
    else if dxSpotMatches cfg spot then
      let alert := dxAlert cfg now spot
      let st1 := st.add_alert now alert
      let st2 := { st1 with last_dx_spots := st1.last_dx_spots ++ [spot.callsign] }
      let r := dxLoop cfg now rest st2
      (r.1, alert :: r.2.1, alert :: r.2.2)
    else
      dxLoop cfg now rest st

/-- `check_dx_alerts` from `data/alerts.rs`: the spot loop followed by the
history trim (`drain(0..50)` once the history exceeds 100 entries). -/
def check_dx_alerts (cfg : AlertConfig) (now : Timestamp)
    (spots : List DxSpot) (st : AlertState) : DetectOut :=
  let r := dxLoop cfg now spots st
  let st2 :=
    if r.1.last_dx_spots.length > 100 then
      { r.1 with last_dx_spots := r.1.last_dx_spots.drop 50 }
    else r.1
  ⟨st2, r.2.1, r.2.2⟩

/-- The watch-list test of `check_satellite_alerts` (empty list means all;
case-insensitive substring match). -/
def satIsWatched (cfg : AlertConfig) (sat : SatelliteData) : Bool :=
  cfg.watched_satellites.isEmpty ||
    cfg.watched_satellites.any (fun name =>
      strContains (strToUpper sat.name) (strToUpper name))

/-- The satellite pass message (countdown or range form). -/
def satMessage (cfg : AlertConfig) (sat : SatelliteData) : String :=
  if cfg.satellite_countdown_enabled then
    let degrees_to_peak : ℚ := 90 - sat.elevation
    let minutes_to_peak : ℚ := max (degrees_to_peak / 10) 1
    sat.name ++ " PASS: El " ++ fmtFixed 0 sat.elevation ++ "Â° Az " ++
      fmtFixed 0 sat.azimuth ++ "Â° (" ++ fmtFixed 0 minutes_to_peak ++ " min to peak)"
  else
    sat.name ++ " PASS: El " ++ fmtFixed 0 sat.elevation ++ "Â° Az " ++
      fmtFixed 0 sat.azimuth ++ "Â° (" ++ toString (Int.tdiv sat.range.num sat.range.den) ++ "km)"

/-- The alert built for a satellite pass. -/
def satAlert (cfg : AlertConfig) (now : Timestamp) (sat : SatelliteData) : Alert :=
  Alert.new .SatellitePass .Notice (satMessage cfg sat) (cfg.alert_duration_seconds * 2) now

/-- The `for sat in &app_data.satellites` loop of `check_satellite_alerts`:
skip unwatched satellites; read the previous elevation (default 0), record
the new one, and alert exactly on an upward threshold crossing. -/
def satLoop (cfg : AlertConfig) (now : Timestamp) :
    List SatelliteData → AlertState → AlertState × List Alert × List Alert
  | [], st => (st, [], [])
  | sat :: rest, st =>
    if !satIsWatched cfg sat then
      satLoop cfg now rest st
    else
      let prev := ((st.last_satellite_elevations.lookup sat.name).getD 0)
      let st1 := { st with last_satellite_elevations :=
        (sat.name, sat.elevation) :: st.last_satellite_elevations }
      if decide (cfg.satellite_elevation_threshold ≤ sat.elevation) &&
         decide (prev < cfg.satellite_elevation_threshold) then
        let alert := satAlert cfg now sat
        let r := satLoop cfg now rest (st1.add_alert now alert)
        (r.1, alert :: r.2.1, alert :: r.2.2)
      else
        satLoop cfg now rest st1

/-- `check_satellite_alerts` from `data/alerts.rs`. -/
def check_satellite_alerts (cfg : AlertConfig) (now : Timestamp)
    (sats : List SatelliteData) (st : AlertState) : DetectOut :=
  let r := satLoop cfg now sats st
  ⟨r.1, r.2.1, r.2.2⟩

/-- The Kp-spike severity match of `check_space_weather_alerts`. -/
def kpSpikeSeverity (kp : ℚ) : AlertSeverity :=
  if 8 ≤ kp then .Emergency
  else if 6 ≤ kp then .Critical
  else if 5 ≤ kp then .Warning
  else .Notice

/-- The Kp-spike status word of `check_space_weather_alerts`. -/
def kpSpikeStatus (kp : ℚ) : String :=
  if 8 ≤ kp then "STORM"
  else if 6 ≤ kp then "ACTIVE"
  else if 5 ≤ kp then "UNSETTLED"
  else "QUIET"

/-- The Kp spike alert (`"âš  Kp SPIKE: {:.1} (+{:.1}) - {}"`). -/
def kpSpikeAlert (cfg : AlertConfig) (now : Timestamp) (sw : SpaceWeather)
    (st : AlertState) : Alert :=
  Alert.new .KpSpike (kpSpikeSeverity sw.kp)
    ("âš  Kp SPIKE: " ++ fmtFixed 1 sw.kp ++ " (+" ++
      fmtFixed 1 (sw.kp - st.last_kp) ++ ") - " ++ kpSpikeStatus sw.kp)
    cfg.alert_duration_seconds now

/-- The Kp spike portion of `check_space_weather_alerts`: fire when
`sw.kp - last_kp >= kp_spike_threshold`, then unconditionally set
`last_kp := sw.kp`. -/
def kpSpikeStep (cfg : AlertConfig) (now : Timestamp) (sw : SpaceWeather)
    (st : AlertState) : AlertState × List Alert × List Alert :=
  if cfg.kp_spike_threshold ≤ sw.kp - st.last_kp then
    ({ st.add_alert now (kpSpikeAlert cfg now sw st) with last_kp := sw.kp },
      [kpSpikeAlert cfg now sw st], [kpSpikeAlert cfg now sw st])
  else ({ st with last_kp := sw.kp }, [], [])

/-- The flux-threshold classification of `check_space_weather_alerts`. -/
def xrayClassOf (flux : Int) : String :=
  if flux > 1000 then "X"
  else if flux > 100 then "M"
  else if flux > 10 then "C"
  else "B"

/-- The X-ray flare severity match of `check_space_weather_alerts`. -/
def xraySeverity (xray_class : String) : AlertSeverity :=
  if xray_class = "X" then .Critical
  else if xray_class = "M" then .Warning
  else .Notice

/-- The X-ray flare alert (`"â˜€ SOLAR FLARE: {} class"`). -/
def xrayAlert (cfg : AlertConfig) (now : Timestamp) (xray_class : String) : Alert :=
  Alert.new .XrayFlare (xraySeverity xray_class)
    ("â˜€ SOLAR FLARE: " ++ xray_class ++ " class") cfg.alert_duration_seconds now

/-- The X-ray flare portion of `check_space_weather_alerts`: gated on
`sw.flux != 0 && sw.flux > 50`; the fire condition compares the flux value
against `last_xray_class.parse::<i32>().unwrap_or(0)` and requires the class
to be watched; afterwards `last_xray_class` is set to the computed class
letter. -/
def xrayStep (cfg : AlertConfig) (now : Timestamp) (sw : SpaceWeather)
    (st : AlertState) : AlertState × List Alert × List Alert :=
  if sw.flux ≠ 0 ∧ sw.flux > 50 then
    let xray_class := xrayClassOf sw.flux
    if sw.flux ≠ parseI32Or0 st.last_xray_class ∧
        cfg.xray_alert_classes.any (· == xray_class) then
      ({ st.add_alert now (xrayAlert cfg now xray_class) with
          last_xray_class := xray_class },
        [xrayAlert cfg now xray_class], [xrayAlert cfg now xray_class])
    else ({ st with last_xray_class := xray_class }, [], [])
  else (st, [], [])

/-- The aurora severity match of `check_space_weather_alerts`. -/
def auroraSeverity (kp : ℚ) : AlertSeverity :=
  if 8 ≤ kp then .Critical
  else if 6 ≤ kp then .Warning
  else if 5 ≤ kp then .Notice
  else .Info

/-- The aurora alert (`"ðŸŒŒ AURORA LIKELY: Kp {:.1}"`). -/
def auroraAlert (cfg : AlertConfig) (now : Timestamp) (kp : ℚ) : Alert :=
  Alert.new .Aurora (auroraSeverity kp)
    ("ðŸŒŒ AURORA LIKELY: Kp " ++ fmtFixed 1 kp) cfg.alert_duration_seconds now

/-- The aurora portion of `check_space_weather_alerts`: fire whenever
`sw.kp ≥ kp_alert_threshold` (level-triggered, no state update). -/
def auroraStep (cfg : AlertConfig) (now : Timestamp) (sw : SpaceWeather)
    (st : AlertState) : AlertState × List Alert × List Alert :=
  if cfg.kp_alert_threshold ≤ sw.kp then
    (st.add_alert now (auroraAlert cfg now sw.kp),
      [auroraAlert cfg now sw.kp], [auroraAlert cfg now sw.kp])
  else (st, [], [])

/-- The CME severity match of `check_space_weather_alerts`. -/
def cmeSeverity (flux_change ap_change : Int) : AlertSeverity :=
  if flux_change > 500 ∨ ap_change > 200 then .Critical
  else if flux_change > 350 ∨ ap_change > 150 then .Warning
  else .Notice

/-- The CME alert (`"ðŸŒŠ CME ALERT: Flux +{} SFU, AP +{} ..."`, double
duration). -/
def cmeAlert (cfg : AlertConfig) (now : Timestamp) (flux_change ap_change : Int) : Alert :=
  Alert.new .Cme (cmeSeverity flux_change ap_change)
    ("ðŸŒŠ CME ALERT: Flux +" ++ toString flux_change ++ " SFU, AP +" ++
      toString ap_change ++ " (possible coronal mass ejection)")
    (cfg.alert_duration_seconds * 2) now

/-- The CME portion of `check_space_weather_alerts`: when enabled, fire on
`|Δflux| > 200 || |Δap| > 100`, then update the flux/Ap baselines. Note the
source adds the CME alert to the ledger but never calls `distribute_alert`
for it, so the distributed list of this step is empty. -/
def cmeStep (cfg : AlertConfig) (now : Timestamp) (sw : SpaceWeather)
    (st : AlertState) : AlertState × List Alert × List Alert :=
  if cfg.cme_alerts_enabled then
    if |sw.flux - st.last_flux| > 200 ∨ |sw.ap - st.last_ap| > 100 then
      ({ st.add_alert now (cmeAlert cfg now |sw.flux - st.last_flux| |sw.ap - st.last_ap|) with
          last_flux := sw.flux, last_ap := sw.ap },
        [cmeAlert cfg now |sw.flux - st.last_flux| |sw.ap - st.last_ap|], [])
    else ({ st with last_flux := sw.flux, last_ap := sw.ap }, [], [])
  else (st, [], [])

/-- `check_space_weather_alerts` from `data/alerts.rs`: Kp spike, X-ray
flare, aurora, then CME, in program order. -/
def check_space_weather_alerts (cfg : AlertConfig) (now : Timestamp)
    (sw : SpaceWeather) (st : AlertState) : DetectOut :=
  let r1 := kpSpikeStep cfg now sw st
  let r2 := xrayStep cfg now sw r1.1
  let r3 := auroraStep cfg now sw r2.1
  let r4 := cmeStep cfg now sw r3.1
  ⟨r4.1, r1.2.1 ++ r2.2.1 ++ r3.2.1 ++ r4.2.1,
    r1.2.2 ++ r2.2.2 ++ r3.2.2 ++ r4.2.2⟩

/-- The `if self.config.dx_alerts_enabled` dispatch of `detect_alerts`. -/
def dxPart (cfg : AlertConfig) (now : Timestamp) (snap : AppSnapshot)
    (st : AlertState) : DetectOut :=
  if cfg.dx_alerts_enabled then check_dx_alerts cfg now snap.dx_spots st
  else ⟨st, [], []⟩

/-- The `if self.config.satellite_alerts_enabled` dispatch of `detect_alerts`. -/
def satPart (cfg : AlertConfig) (now : Timestamp) (snap : AppSnapshot)
    (st : AlertState) : DetectOut :=
  if cfg.satellite_alerts_enabled then
    check_satellite_alerts cfg now snap.satellites st
  else ⟨st, [], []⟩

/-- The `if self.config.space_weather_alerts_enabled` dispatch of
`detect_alerts`. -/
def swPart (cfg : AlertConfig) (now : Timestamp) (snap : AppSnapshot)
    (st : AlertState) : DetectOut :=
  if cfg.space_weather_alerts_enabled then
    check_space_weather_alerts cfg now snap.space_weather st
  else ⟨st, [], []⟩

/-- `AlertDetector::detect_alerts` from `data/alerts.rs`: prune the ledger,
then run each enabled rule family. -/
def detect_alerts (cfg : AlertConfig) (now : Timestamp) (snap : AppSnapshot)
    (st : AlertState) : DetectOut :=
  let st0 := st.cleanup_expired now
  let r1 := dxPart cfg now snap st0
  let r2 := satPart cfg now snap r1.state
  let r3 := swPart cfg now snap r2.state
  ⟨r3.state, r1.produced ++ r2.produced ++ r3.produced,
    r1.distributed ++ r2.distributed ++ r3.distributed⟩

/-- A bounded `tokio::sync::mpsc` queue as seen from the sender side:
`try_send` appends when below capacity and drops the item otherwise. -/
structure SinkQueue where
  capacity : Nat
  items : List Alert
deriving DecidableEq, Repr

/-- `mpsc::Sender::try_send` (non-blocking, drop on full). -/
def SinkQueue.trySend (a : Alert) (q : SinkQueue) : SinkQueue :=
  if q.items.length < q.capacity then { q with items := q.items ++ [a] } else q

/-- `AlertChannels` from `phase9/mod.rs`: one queue handle per sink. -/
structure AlertChannels where
  history_tx : SinkQueue
  notification_tx : SinkQueue
  mqtt_tx : SinkQueue
  web_tx : SinkQueue
deriving DecidableEq, Repr

/-- `AlertChannels::distribute`: `try_send` a clone of the alert on each of
the four sink queues. -/
def AlertChannels.distribute (a : Alert) (ch : AlertChannels) : AlertChannels :=
  { history_tx := ch.history_tx.trySend a
    notification_tx := ch.notification_tx.trySend a
    mqtt_tx := ch.mqtt_tx.trySend a
    web_tx := ch.web_tx.trySend a }

/-- `CacheEntry<T>` from `data/cache.rs` (`ttl` in milliseconds). -/
structure CacheEntry (α : Type) where
  data : α
  created_at : Timestamp
  ttl : Int
deriving DecidableEq, Repr

/-- `CacheEntry::is_valid` (`Utc::now() - created_at < ttl`, strict). -/
def CacheEntry.is_valid {α : Type} (now : Timestamp) (e : CacheEntry α) : Bool :=
  decide (now - e.created_at < e.ttl)

/-- `CacheEntry::get`: the data when still valid, else `None`. -/
def CacheEntry.get {α : Type} (now : Timestamp) (e : CacheEntry α) : Option α :=
  if e.is_valid now then some e.data else none

/-- `ResponseCache` from `data/cache.rs`: one optional entry per data kind
(the `Arc<Mutex<..>>` wrappers provide race-free access and are not part of
the sequential value). -/
structure ResponseCache where
  space_weather : Option (CacheEntry SpaceWeather) := none
  forecast : Option (CacheEntry (List Forecast)) := none
  dx_spots : Option (CacheEntry (List DxSpot)) := none
  satellites : Option (CacheEntry (List SatelliteData)) := none
deriving DecidableEq, Repr

/-- `ResponseCache::new`. -/
def ResponseCache.new : ResponseCache := {}

/-- `ResponseCache::cache_space_weather` (TTL 30 minutes). -/
def ResponseCache.cache_space_weather (v : SpaceWeather) (now : Timestamp)
    (c : ResponseCache) : ResponseCache :=
  { c with space_weather := some ⟨v, now, 30 * 60000⟩ }

/-- `ResponseCache::get_space_weather`. -/
def ResponseCache.get_space_weather (now : Timestamp) (c : ResponseCache) :
    Option SpaceWeather :=
  c.space_weather.bind (CacheEntry.get now)

/-- `ResponseCache::cache_forecast` (TTL 2 hours). -/
def ResponseCache.cache_forecast (v : List Forecast) (now : Timestamp)
    (c : ResponseCache) : ResponseCache :=
  { c with forecast := some ⟨v, now, 2 * 3600000⟩ }

/-- `ResponseCache::get_forecast`. -/
def ResponseCache.get_forecast (now : Timestamp) (c : ResponseCache) :
    Option (List Forecast) :=
  c.forecast.bind (CacheEntry.get now)

/-- `ResponseCache::cache_dx_spots` (TTL 10 minutes). -/
def ResponseCache.cache_dx_spots (v : List DxSpot) (now : Timestamp)
    (c : ResponseCache) : ResponseCache :=
  { c with dx_spots := some ⟨v, now, 10 * 60000⟩ }

/-- `ResponseCache::get_dx_spots`. -/
def ResponseCache.get_dx_spots (now : Timestamp) (c : ResponseCache) :
    Option (List DxSpot) :=
  c.dx_spots.bind (CacheEntry.get now)

/-- `ResponseCache::cache_satellites` (TTL 15 minutes). -/
def ResponseCache.cache_satellites (v : List SatelliteData) (now : Timestamp)
    (c : ResponseCache) : ResponseCache :=
  { c with satellites := some ⟨v, now, 15 * 60000⟩ }

/-- `ResponseCache::get_satellites`. -/
def ResponseCache.get_satellites (now : Timestamp) (c : ResponseCache) :
    Option (List SatelliteData) :=
  c.satellites.bind (CacheEntry.get now)

/-- `ResponseCache::clear_all`. -/
def ResponseCache.clear_all (_c : ResponseCache) : ResponseCache := {}

/-- One row of the `alerts` SQLite table created by `AlertHistory::new`
(`id TEXT PRIMARY KEY`, type/severity as their Debug strings, timestamps in
epoch seconds, acknowledged as 0/1). -/
structure AlertRow where
  id : String
  alert_type : String
  severity : String
  message : String
  created_at : Int
  expires_at : Int
  acknowledged : Int
deriving DecidableEq, Repr

/-- The row `AlertHistory::insert_alert` binds for an alert. -/
def AlertRow.ofAlert (a : Alert) : AlertRow :=
  { id := a.id
    alert_type := a.alert_type.debugStr
    severity := a.severity.debugStr
    message := a.message
    created_at := timestampSecs a.created_at
    expires_at := timestampSecs a.expires_at
    acknowledged := if a.acknowledged then 1 else 0 }

/-- The `alerts` table contents, in insertion order. -/
abbrev HistoryDb := List AlertRow

/-- `AlertHistory::insert_alert`: a plain `INSERT` into a table whose `id`
column is `PRIMARY KEY`, so SQLite rejects a row whose id already exists
(UNIQUE constraint) and the statement returns an error without persisting
the row; otherwise the row is appended. -/
def insert_alert (a : Alert) (db : HistoryDb) : Except String HistoryDb :=
  if db.any (·.id == a.id) then
    .error "UNIQUE constraint failed: alerts.id"
  else
    .ok (db ++ [AlertRow.ofAlert a])

/-- The periodic detection driver of `main.rs`, specialised to a finite
schedule: run `detect_alerts` once per listed `(instant, snapshot)` pair,
threading the ledger state, and collect every candidate alert produced. -/
def runCycles (cfg : AlertConfig) :
    List (Timestamp × AppSnapshot) → AlertState → AlertState × List Alert
  | [], st => (st, [])
  | (t, snap) :: rest, st =>
    let out := detect_alerts cfg t snap st
    let r := runCycles cfg rest out.state
    (r.1, out.produced ++ r.2)

/-- Number of alerts of a given type in a list. -/
def countType (ty : AlertType) (l : List Alert) : Nat :=
  (l.filter (fun a => a.alert_type == ty)).length

end HamClock


namespace HamClock

/-! ### Concrete scenario material shared by the claim theorems -/

/-- Per-cycle counts of produced alerts of one type along a schedule. -/
def cycleCounts (cfg : AlertConfig) (ty : AlertType) :
    List (Timestamp × AppSnapshot) → AlertState → List Nat
  | [], _ => []
  | (t, snap) :: rest, st =>
    let out := detect_alerts cfg t snap st
    countType ty out.produced :: cycleCounts cfg ty rest out.state

/-- Default configuration with only the space-weather rules enabled
(DX, satellite and CME rules off). -/
def swOnlyConfig : AlertConfig :=
  { AlertConfig.default with
      dx_alerts_enabled := false
      satellite_alerts_enabled := false
      cme_alerts_enabled := false }

/-- Satellite-trace configuration: only satellite alerts, watching "ISS",
threshold 30 degrees (the default). -/
def satTraceConfig : AlertConfig :=
  { AlertConfig.default with
      dx_alerts_enabled := false
      space_weather_alerts_enabled := false
      watched_satellites := ["ISS"] }

/-- A snapshot containing a single ISS observation at the given elevation. -/
def satSnap (e : ℚ) : AppSnapshot :=
  { satellites := [{ name := "ISS", elevation := e, azimuth := 180, range := 500 }] }

/-- The spec's elevation sequence [10,20,31,40,25,35], one cycle every
10 minutes. -/
def satSchedule : List (Timestamp × AppSnapshot) :=
  (([10, 20, 31, 40, 25, 35] : List ℚ).enum).map
    (fun (p : Nat × ℚ) => ((p.1 : Int) * 600000, satSnap p.2))

/-- The spec's Kp sequence [4,6,6,6,3], one cycle every 10 minutes. -/
def auroraSchedule : List (Timestamp × AppSnapshot) :=
  (([4, 6, 6, 6, 3] : List ℚ).enum).map
    (fun (p : Nat × ℚ) => ((p.1 : Int) * 600000, { space_weather := { kp := p.2 } }))

/-- A flux sequence whose B/C/M/X classifications are [B,B,M,M,X,X,M]. -/
def xrayFluxTrace : List Int := [5, 5, 200, 200, 2000, 2000, 200]

/-- The X-ray trace as a cycle schedule, one cycle every 10 minutes. -/
def xraySchedule : List (Timestamp × AppSnapshot) :=
  (xrayFluxTrace.enum).map
    (fun (p : Nat × Int) => ((p.1 : Int) * 600000, { space_weather := { flux := p.2 } }))

/-- Configuration for the Router-handoff counterexample: space-weather and
CME rules on, everything else quiet (no DX/satellite rules, no watched X-ray
classes, Kp-spike threshold out of reach), 10-minute alert duration. -/
def routerCexConfig : AlertConfig :=
  { AlertConfig.default with
      dx_alerts_enabled := false
      satellite_alerts_enabled := false
      xray_alert_classes := []
      kp_spike_threshold := 100
      alert_duration_seconds := 600 }

/-- First cycle at t = 0: Kp 6 fires the aurora rule, flux 300 fires the CME
rule (`|Δflux| = 300 > 200`). -/
def routerCexOut1 : DetectOut :=
  detect_alerts routerCexConfig 0 { space_weather := { kp := 6, flux := 300 } }
    AlertState.new

/-- Second cycle one minute later with the same snapshot: the aurora
candidate is inside the dedup window. -/
def routerCexOut2 : DetectOut :=
  detect_alerts routerCexConfig 60000 { space_weather := { kp := 6, flux := 300 } }
    routerCexOut1.state

/-- The dedup property between two alerts: if both are of the same type and
both still active, their creation instants are at least the 5-minute
(300000 ms) storm-suppression window apart. -/
def DedupGapOk (now : Timestamp) (a b : Alert) : Prop :=
  a.alert_type = b.alert_type → a.is_active now = true → b.is_active now = true →
    300000 ≤ |a.created_at - b.created_at|

/-- The C3 invariant: pairwise, no two active alerts of the same type were
created within the 5-minute dedup window of each other. -/
def DedupGap (now : Timestamp) (l : List Alert) : Prop :=
  l.Pairwise (DedupGapOk now)

/-- One externally observable ledger transition: a detection cycle at a
later-or-equal instant (the only mutator, per `main.rs`), or one of the two
acknowledgment operations. -/
inductive LedgerStep : AlertState × Timestamp → AlertState × Timestamp → Prop where
  | cycle (cfg : AlertConfig) (snap : AppSnapshot) (s : AlertState) (t t' : Timestamp) :
      t ≤ t' → LedgerStep (s, t) ((detect_alerts cfg t' snap s).state, t')
  | ackLatest (s : AlertState) (t : Timestamp) :
      LedgerStep (s, t) (s.acknowledge_latest, t)
  | ackAll (s : AlertState) (t : Timestamp) :
      LedgerStep (s, t) (s.acknowledge_all, t)

/-- Ledger states reachable from the freshly created ledger. -/
def LedgerReachable (t0 : Timestamp) (p : AlertState × Timestamp) : Prop :=
  Relation.ReflTransGen LedgerStep (AlertState.new, t0) p

/-! ### Claim theorems: cache, ledger cleanup, alert expiry, alert ids -/

/-- C7: for every data kind, `put` then `get` returns `Some v` exactly while
the entry's age is strictly below that kind's TTL and `None` once the TTL has
elapsed; `get` only ever returns a still-valid entry's value; `put` replaces
the entry wholesale with a freshly timestamped one. -/
theorem cache_roundtrip_ttl :
    (∀ (c : ResponseCache) (v : SpaceWeather) (now t : Timestamp),
        (c.cache_space_weather v now).get_space_weather t =
          if t - now < 30 * 60000 then some v else none) ∧
    (∀ (c : ResponseCache) (v : List Forecast) (now t : Timestamp),
        (c.cache_forecast v now).get_forecast t =
          if t - now < 2 * 3600000 then some v else none) ∧
    (∀ (c : ResponseCache) (v : List DxSpot) (now t : Timestamp),
        (c.cache_dx_spots v now).get_dx_spots t =
          if t - now < 10 * 60000 then some v else none) ∧
    (∀ (c : ResponseCache) (v : List SatelliteData) (now t : Timestamp),
        (c.cache_satellites v now).get_satellites t =
          if t - now < 15 * 60000 then some v else none) ∧
    (∀ {α : Type} (e : CacheEntry α) (now : Timestamp) (v : α),
        CacheEntry.get now e = some v ↔ now - e.created_at < e.ttl ∧ v = e.data) ∧
    (∀ (c : ResponseCache) (v : SpaceWeather) (now : Timestamp),
        (c.cache_space_weather v now).space_weather =
          some { data := v, created_at := now, ttl := 30 * 60000 }) := by
  refine ⟨?_, ?_, ?_, ?_, ?_, ?_⟩
  · intro c v now t
    simp only [ResponseCache.cache_space_weather, ResponseCache.get_space_weather,
      CacheEntry.get, CacheEntry.is_valid, decide_eq_true_eq, Option.some_bind]
  · intro c v now t
    simp only [ResponseCache.cache_forecast, ResponseCache.get_forecast,
      CacheEntry.get, CacheEntry.is_valid, decide_eq_true_eq, Option.some_bind]
  · intro c v now t
    simp only [ResponseCache.cache_dx_spots, ResponseCache.get_dx_spots,
      CacheEntry.get, CacheEntry.is_valid, decide_eq_true_eq, Option.some_bind]
  · intro c v now t
    simp only [ResponseCache.cache_satellites, ResponseCache.get_satellites,
      CacheEntry.get, CacheEntry.is_valid, decide_eq_true_eq, Option.some_bind]
  · intro α e now v
    simp only [CacheEntry.get, CacheEntry.is_valid, decide_eq_true_eq]
    split <;> simp_all [eq_comm]
  · intro c v now
    simp [ResponseCache.cache_space_weather]

/-- C8: `cleanup_expired` keeps exactly the alerts that are neither expired
nor acknowledged, and running it twice at the same instant gives the same
state as running it once. -/
theorem cleanup_exact_and_idempotent :
    (∀ (st : AlertState) (now : Timestamp) (a : Alert),
        a ∈ (st.cleanup_expired now).active_alerts ↔
          a ∈ st.active_alerts ∧ ¬(a.is_expired now = true ∨ a.acknowledged = true)) ∧
    (∀ (st : AlertState) (now : Timestamp),
        (st.cleanup_expired now).cleanup_expired now = st.cleanup_expired now) := by
  constructor
  · intro st now a
    simp [AlertState.cleanup_expired, List.mem_filter, Alert.is_active]
  · intro st now
    simp [AlertState.cleanup_expired, List.filter_filter]

/-- C9 counterexample: with a configured duration of 0 seconds,
`Alert::new` yields `expires_at = created_at`, so `expires_at > created_at`
fails. -/
theorem alert_expiry_cex :
    ¬ ((Alert.new .DxSpot .Notice "" 0 0).created_at <
        (Alert.new .DxSpot .Notice "" 0 0).expires_at) := by
  decide

/-- C9 (amended): for every alert built by `Alert::new` with a nonzero
duration that is nonnegative as an `i64` (`1 ≤ duration_seconds < 2^63`),
`expires_at > created_at`; at duration 0 the two instants coincide. -/
theorem alert_expiry_positive (ty : AlertType) (sev : AlertSeverity) (msg : String)
    (d : Nat) (now : Timestamp) (h1 : 1 ≤ d) (h2 : d < 2 ^ 63) :
    (Alert.new ty sev msg d now).created_at < (Alert.new ty sev msg d now).expires_at := by
  have h3 : u64AsI64 d = (d : Int) := by unfold u64AsI64; rw [if_pos h2]
  show now < now + 1000 * u64AsI64 d
  rw [h3]
  have h4 : (1 : Int) ≤ (d : Int) := by exact_mod_cast h1
  linarith

/-- Witness for `alert_expiry_positive` at the default 30-second duration. -/
theorem alert_expiry_positive_witness :
    (Alert.new .KpSpike .Critical "w" 30 1000).created_at <
      (Alert.new .KpSpike .Critical "w" 30 1000).expires_at :=
  alert_expiry_positive .KpSpike .Critical "w" 30 1000 (by decide) (by decide)

/-- C10: two alerts of the same type created in the same wall-clock second
get the same id (`{:?}-{timestamp-seconds}`), and inserting the second into
the history store — whose `id` column is the primary key — returns an error,
leaving that alert unpersisted. -/
theorem alert_id_collision_history :
    (∀ (ty : AlertType) (s1 : AlertSeverity) (m1 : String) (d1 : Nat)
        (s2 : AlertSeverity) (m2 : String) (d2 : Nat) (t1 t2 : Timestamp),
        timestampSecs t1 = timestampSecs t2 →
        (Alert.new ty s1 m1 d1 t1).id = (Alert.new ty s2 m2 d2 t2).id) ∧
    (∀ (a b : Alert) (db db' : HistoryDb), a.id = b.id →
        insert_alert a db = .ok db' →
        insert_alert b db' = .error "UNIQUE constraint failed: alerts.id") := by
  constructor
  · intro ty s1 m1 d1 s2 m2 d2 t1 t2 h
    simp [Alert.new, h]
  · intro a b db db' hid hins
    simp only [insert_alert] at hins ⊢
    split at hins
    · exact absurd hins (by simp)
    · rename_i hany
      have hdb' : db' = db ++ [AlertRow.ofAlert a] := by
        simpa using hins.symm
      rw [if_pos]
      subst hdb'
      refine List.any_eq_true.mpr ⟨AlertRow.ofAlert a, by simp, ?_⟩
      simp [AlertRow.ofAlert, hid]

/-- Witness for `alert_id_collision_history`: two `DxSpot` alerts created at
1500 ms and 1900 ms (both in epoch second 1) collide, and the second insert
into an initially empty store fails. -/
theorem alert_id_collision_history_witness :
    (Alert.new .DxSpot .Notice "x" 30 1500).id = (Alert.new .DxSpot .Info "y" 10 1900).id ∧
    insert_alert (Alert.new .DxSpot .Info "y" 10 1900)
        [AlertRow.ofAlert (Alert.new .DxSpot .Notice "x" 30 1500)] =
      .error "UNIQUE constraint failed: alerts.id" :=
  ⟨alert_id_collision_history.1 .DxSpot .Notice "x" 30 .Info "y" 10 1500 1900 (by decide),
   alert_id_collision_history.2 (Alert.new .DxSpot .Notice "x" 30 1500)
     (Alert.new .DxSpot .Info "y" 10 1900) []
     [AlertRow.ofAlert (Alert.new .DxSpot .Notice "x" 30 1500)]
     (alert_id_collision_history.1 .DxSpot .Notice "x" 30 .Info "y" 10 1500 1900 (by decide))
     (by rfl)⟩

/-! ### Helper lemmas about the detector -/

theorem countType_nil (ty : AlertType) : countType ty [] = 0 := rfl

theorem countType_append (ty : AlertType) (l1 l2 : List Alert) :
    countType ty (l1 ++ l2) = countType ty l1 + countType ty l2 := by
  simp [countType, List.filter_append]

theorem countType_singleton (ty : AlertType) (a : Alert) :
    countType ty [a] = if a.alert_type = ty then 1 else 0 := by
  simp [countType, List.filter]
  split <;> simp_all

theorem countType_eq_zero_of (ty : AlertType) (l : List Alert)
    (h : ∀ a ∈ l, a.alert_type ≠ ty) : countType ty l = 0 := by
  simp only [countType, List.length_eq_zero, List.filter_eq_nil_iff]
  intro a ha
  simpa using h a ha

theorem add_alert_last_kp (now : Timestamp) (a : Alert) (st : AlertState) :
    (st.add_alert now a).last_kp = st.last_kp := by
  unfold AlertState.add_alert
  dsimp only
  split <;> rfl

theorem add_alert_last_satellite_elevations (now : Timestamp) (a : Alert) (st : AlertState) :
    (st.add_alert now a).last_satellite_elevations = st.last_satellite_elevations := by
  unfold AlertState.add_alert
  dsimp only
  split <;> rfl

theorem dxLoop_facts (cfg : AlertConfig) (now : Timestamp) (spots : List DxSpot)
    (st : AlertState) :
    (dxLoop cfg now spots st).2.2 = (dxLoop cfg now spots st).2.1 ∧
    (∀ a ∈ (dxLoop cfg now spots st).2.1, a.alert_type = .DxSpot) ∧
    (dxLoop cfg now spots st).1.last_kp = st.last_kp ∧
    (dxLoop cfg now spots st).1.last_satellite_elevations = st.last_satellite_elevations := by
  induction spots generalizing st with
  | nil => simp [dxLoop]
  | cons spot rest ih =>
    unfold dxLoop
    dsimp only
    split
    · exact ih st
    · split
      · have h := ih { st.add_alert now (dxAlert cfg now spot) with
          last_dx_spots := (st.add_alert now (dxAlert cfg now spot)).last_dx_spots ++
            [spot.callsign] }
        refine ⟨?_, ?_, ?_, ?_⟩
        · simpa using h.1
        · intro a ha
          rcases (by simpa using ha) with rfl | hmem
          · rfl
          · exact h.2.1 a hmem
        · simpa [add_alert_last_kp] using h.2.2.1
        · simpa [add_alert_last_satellite_elevations] using h.2.2.2
      · exact ih st

theorem check_dx_facts (cfg : AlertConfig) (now : Timestamp) (spots : List DxSpot)
    (st : AlertState) :
    (check_dx_alerts cfg now spots st).distributed = (check_dx_alerts cfg now spots st).produced ∧
    (∀ a ∈ (check_dx_alerts cfg now spots st).produced, a.alert_type = .DxSpot) ∧
    (check_dx_alerts cfg now spots st).state.last_kp = st.last_kp ∧
    (check_dx_alerts cfg now spots st).state.last_satellite_elevations =
      st.last_satellite_elevations := by
  have h := dxLoop_facts cfg now spots st
  refine ⟨h.1, h.2.1, ?_, ?_⟩
  · show (if _ then _ else _ : AlertState).last_kp = _
    split <;> exact h.2.2.1
  · show (if _ then _ else _ : AlertState).last_satellite_elevations = _
    split <;> exact h.2.2.2

theorem satLoop_facts (cfg : AlertConfig) (now : Timestamp) (sats : List SatelliteData)
    (st : AlertState) :
    (satLoop cfg now sats st).2.2 = (satLoop cfg now sats st).2.1 ∧
    (∀ a ∈ (satLoop cfg now sats st).2.1, a.alert_type = .SatellitePass) ∧
    (satLoop cfg now sats st).1.last_kp = st.last_kp := by
  induction sats generalizing st with
  | nil => simp [satLoop]
  | cons sat rest ih =>
    unfold satLoop
    dsimp only
    split
    · exact ih st
    · split
      · have h := ih (AlertState.add_alert now (satAlert cfg now sat)
          { st with last_satellite_elevations :=
              (sat.name, sat.elevation) :: st.last_satellite_elevations })
        refine ⟨by simpa using h.1, ?_, by simpa [add_alert_last_kp] using h.2.2⟩
        intro a ha
        rcases (by simpa using ha) with rfl | hmem
        · rfl
        · exact h.2.1 a hmem
      · exact ih { st with last_satellite_elevations :=
          (sat.name, sat.elevation) :: st.last_satellite_elevations }

theorem kpSpikeStep_facts (cfg : AlertConfig) (now : Timestamp) (sw : SpaceWeather)
    (st : AlertState) :
    (kpSpikeStep cfg now sw st).2.2 = (kpSpikeStep cfg now sw st).2.1 ∧
    (∀ a ∈ (kpSpikeStep cfg now sw st).2.1,
        a.alert_type = .KpSpike ∧ a.severity = kpSpikeSeverity sw.kp) ∧
    (kpSpikeStep cfg now sw st).1.last_kp = sw.kp ∧
    (kpSpikeStep cfg now sw st).1.last_satellite_elevations =
      st.last_satellite_elevations ∧
    (∀ ty, countType ty (kpSpikeStep cfg now sw st).2.1 =
        if ty = .KpSpike ∧ cfg.kp_spike_threshold ≤ sw.kp - st.last_kp then 1 else 0) := by
  unfold kpSpikeStep
  split
  · rename_i h
    refine ⟨rfl, ?_, rfl, by simp [add_alert_last_satellite_elevations], ?_⟩
    · intro a ha
      rcases (by simpa using ha : a = kpSpikeAlert cfg now sw st) with rfl
      exact ⟨rfl, rfl⟩
    · intro ty
      by_cases hty : ty = .KpSpike <;>
        simp [countType_singleton, hty, h, kpSpikeAlert, Alert.new, eq_comm]
  · rename_i h
    refine ⟨rfl, by simp, rfl, rfl, ?_⟩
    intro ty
    simp [countType_nil, h]

theorem xrayStep_facts (cfg : AlertConfig) (now : Timestamp) (sw : SpaceWeather)
    (st : AlertState) :
    (xrayStep cfg now sw st).2.2 = (xrayStep cfg now sw st).2.1 ∧
    (∀ a ∈ (xrayStep cfg now sw st).2.1, a.alert_type = .XrayFlare) ∧
    (xrayStep cfg now sw st).1.last_kp = st.last_kp ∧
    (xrayStep cfg now sw st).1.last_satellite_elevations =
      st.last_satellite_elevations := by
  unfold xrayStep
  split
  · dsimp only
    split
    · refine ⟨rfl, ?_, by simp [add_alert_last_kp],
        by simp [add_alert_last_satellite_elevations]⟩
      intro a ha
      rcases (by simpa using ha : a = xrayAlert cfg now (xrayClassOf sw.flux)) with rfl
      rfl
    · exact ⟨rfl, by simp, rfl, rfl⟩
  · exact ⟨rfl, by simp, rfl, rfl⟩

theorem auroraStep_facts (cfg : AlertConfig) (now : Timestamp) (sw : SpaceWeather)
    (st : AlertState) :
    (auroraStep cfg now sw st).2.2 = (auroraStep cfg now sw st).2.1 ∧
    (∀ a ∈ (auroraStep cfg now sw st).2.1, a.alert_type = .Aurora) ∧
    (auroraStep cfg now sw st).1.last_kp = st.last_kp ∧
    (auroraStep cfg now sw st).1.last_satellite_elevations =
      st.last_satellite_elevations ∧
    (∀ ty, countType ty (auroraStep cfg now sw st).2.1 =
        if ty = .Aurora ∧ cfg.kp_alert_threshold ≤ sw.kp then 1 else 0) := by
  unfold auroraStep
  split
  · rename_i h
    refine ⟨rfl, ?_, by simp [add_alert_last_kp],
      by simp [add_alert_last_satellite_elevations], ?_⟩
    · intro a ha
      rcases (by simpa using ha : a = auroraAlert cfg now sw.kp) with rfl
      rfl
    · intro ty
      by_cases hty : ty = .Aurora <;>
        simp [countType_singleton, hty, h, auroraAlert, Alert.new, eq_comm]
  · rename_i h
    refine ⟨rfl, by simp, rfl, rfl, ?_⟩
    intro ty
    simp [countType_nil, h]

theorem cmeStep_facts (cfg : AlertConfig) (now : Timestamp) (sw : SpaceWeather)
    (st : AlertState) :
    (cmeStep cfg now sw st).2.2 = [] ∧
    (∀ a ∈ (cmeStep cfg now sw st).2.1, a.alert_type = .Cme) ∧
    (cmeStep cfg now sw st).1.last_kp = st.last_kp ∧
    (cmeStep cfg now sw st).1.last_satellite_elevations =
      st.last_satellite_elevations := by
  unfold cmeStep
  split
  · dsimp only
    split
    · refine ⟨rfl, ?_, by simp [add_alert_last_kp],
        by simp [add_alert_last_satellite_elevations]⟩
      intro a ha
      rcases (by simpa using ha :
        a = cmeAlert cfg now |sw.flux - st.last_flux| |sw.ap - st.last_ap|) with rfl
      rfl
    · exact ⟨rfl, by simp, rfl, rfl⟩
  · exact ⟨rfl, by simp, rfl, rfl⟩

theorem check_sat_facts (cfg : AlertConfig) (now : Timestamp) (sats : List SatelliteData)
    (st : AlertState) :
    (check_satellite_alerts cfg now sats st).distributed =
      (check_satellite_alerts cfg now sats st).produced ∧
    (∀ a ∈ (check_satellite_alerts cfg now sats st).produced,
        a.alert_type = .SatellitePass) ∧
    (check_satellite_alerts cfg now sats st).state.last_kp = st.last_kp := by
  have h := satLoop_facts cfg now sats st
  exact ⟨h.1, h.2.1, h.2.2⟩

theorem filter_notCme_of_types (l : List Alert) (h : ∀ a ∈ l, a.alert_type ≠ .Cme) :
    l.filter (fun a => !(a.alert_type == AlertType.Cme)) = l :=
  List.filter_eq_self.mpr (fun a ha => by simp [h a ha])

theorem filter_notCme_nil_of_types (l : List Alert) (h : ∀ a ∈ l, a.alert_type = .Cme) :
    l.filter (fun a => !(a.alert_type == AlertType.Cme)) = [] :=
  List.filter_eq_nil_iff.mpr (fun a ha => by simp [h a ha])

theorem check_sw_facts (cfg : AlertConfig) (now : Timestamp) (sw : SpaceWeather)
    (st : AlertState) :
    (check_space_weather_alerts cfg now sw st).distributed =
      (check_space_weather_alerts cfg now sw st).produced.filter
        (fun a => !(a.alert_type == AlertType.Cme)) ∧
    (check_space_weather_alerts cfg now sw st).state.last_kp = sw.kp ∧
    (check_space_weather_alerts cfg now sw st).state.last_satellite_elevations =
      st.last_satellite_elevations ∧
    countType .Aurora (check_space_weather_alerts cfg now sw st).produced =
      (if cfg.kp_alert_threshold ≤ sw.kp then 1 else 0) ∧
    countType .KpSpike (check_space_weather_alerts cfg now sw st).produced =
      (if cfg.kp_spike_threshold ≤ sw.kp - st.last_kp then 1 else 0) ∧
    (∀ a ∈ (check_space_weather_alerts cfg now sw st).produced,
        a.alert_type = .KpSpike → a.severity = kpSpikeSeverity sw.kp) ∧
    (∀ a ∈ (check_space_weather_alerts cfg now sw st).produced,
        a.alert_type ≠ .SatellitePass) := by
  have h1 := kpSpikeStep_facts cfg now sw st
  have h2 := xrayStep_facts cfg now sw (kpSpikeStep cfg now sw st).1
  have h3 := auroraStep_facts cfg now sw (xrayStep cfg now sw (kpSpikeStep cfg now sw st).1).1
  have h4 := cmeStep_facts cfg now sw
    (auroraStep cfg now sw (xrayStep cfg now sw (kpSpikeStep cfg now sw st).1).1).1
  unfold check_space_weather_alerts
  dsimp only
  refine ⟨?_, ?_, ?_, ?_, ?_, ?_, ?_⟩
  · rw [h1.1, h2.1, h3.1, h4.1, List.filter_append, List.filter_append, List.filter_append]
    rw [filter_notCme_of_types _ (fun a ha => by simp [(h1.2.1 a ha).1]),
        filter_notCme_of_types _ (fun a ha => by simp [h2.2.1 a ha]),
        filter_notCme_of_types _ (fun a ha => by simp [h3.2.1 a ha]),
        filter_notCme_nil_of_types _ h4.2.1]
  · rw [h4.2.2.1, h3.2.2.1, h2.2.2.1, h1.2.2.1]
  · rw [h4.2.2.2, h3.2.2.2.1, h2.2.2.2, h1.2.2.2.1]
  · have z1 : countType AlertType.Aurora (kpSpikeStep cfg now sw st).2.1 = 0 :=
      countType_eq_zero_of _ _ (fun a ha => by simp [(h1.2.1 a ha).1])
    have z2 : countType AlertType.Aurora
        (xrayStep cfg now sw (kpSpikeStep cfg now sw st).1).2.1 = 0 :=
      countType_eq_zero_of _ _ (fun a ha => by simp [h2.2.1 a ha])
    have z4 : countType AlertType.Aurora
        (cmeStep cfg now sw (auroraStep cfg now sw
          (xrayStep cfg now sw (kpSpikeStep cfg now sw st).1).1).1).2.1 = 0 :=
      countType_eq_zero_of _ _ (fun a ha => by simp [h4.2.1 a ha])
    rw [countType_append, countType_append, countType_append, z1, z2, z4,
      h3.2.2.2.2 .Aurora]
    simp
  · have z2 : countType AlertType.KpSpike
        (xrayStep cfg now sw (kpSpikeStep cfg now sw st).1).2.1 = 0 :=
      countType_eq_zero_of _ _ (fun a ha => by simp [h2.2.1 a ha])
    have z3 : countType AlertType.KpSpike
        (auroraStep cfg now sw (xrayStep cfg now sw (kpSpikeStep cfg now sw st).1).1).2.1 = 0 :=
      countType_eq_zero_of _ _ (fun a ha => by simp [h3.2.1 a ha])
    have z4 : countType AlertType.KpSpike
        (cmeStep cfg now sw (auroraStep cfg now sw
          (xrayStep cfg now sw (kpSpikeStep cfg now sw st).1).1).1).2.1 = 0 :=
      countType_eq_zero_of _ _ (fun a ha => by simp [h4.2.1 a ha])
    rw [countType_append, countType_append, countType_append, z2, z3, z4,
      h1.2.2.2.2 .KpSpike]
    simp
  · intro a ha hty
    rcases (by simpa using ha) with h | h | h | h
    · exact (h1.2.1 a h).2
    · exact absurd (h2.2.1 a h) (by rw [hty]; simp)
    · exact absurd (h3.2.1 a h) (by rw [hty]; simp)
    · exact absurd (h4.2.1 a h) (by rw [hty]; simp)
  · intro a ha
    rcases (by simpa using ha) with h | h | h | h
    · rw [(h1.2.1 a h).1]; simp
    · rw [h2.2.1 a h]; simp
    · rw [h3.2.1 a h]; simp
    · rw [h4.2.1 a h]; simp

theorem dxPart_facts (cfg : AlertConfig) (now : Timestamp) (snap : AppSnapshot)
    (st : AlertState) :
    (dxPart cfg now snap st).distributed = (dxPart cfg now snap st).produced ∧
    (∀ a ∈ (dxPart cfg now snap st).produced, a.alert_type = .DxSpot) ∧
    (dxPart cfg now snap st).state.last_kp = st.last_kp ∧
    (dxPart cfg now snap st).state.last_satellite_elevations =
      st.last_satellite_elevations := by
  unfold dxPart
  split
  · exact check_dx_facts cfg now snap.dx_spots st
  · exact ⟨rfl, by simp, rfl, rfl⟩

theorem satPart_facts (cfg : AlertConfig) (now : Timestamp) (snap : AppSnapshot)
    (st : AlertState) :
    (satPart cfg now snap st).distributed = (satPart cfg now snap st).produced ∧
    (∀ a ∈ (satPart cfg now snap st).produced, a.alert_type = .SatellitePass) ∧
    (satPart cfg now snap st).state.last_kp = st.last_kp := by
  unfold satPart
  split
  · exact check_sat_facts cfg now snap.satellites st
  · exact ⟨rfl, by simp, rfl⟩

theorem swPart_facts (cfg : AlertConfig) (now : Timestamp) (snap : AppSnapshot)
    (st : AlertState) :
    (swPart cfg now snap st).distributed =
      (swPart cfg now snap st).produced.filter
        (fun a => !(a.alert_type == AlertType.Cme)) ∧
    (swPart cfg now snap st).state.last_kp =
      (if cfg.space_weather_alerts_enabled = true
        then snap.space_weather.kp else st.last_kp) ∧
    countType .Aurora (swPart cfg now snap st).produced =
      (if cfg.space_weather_alerts_enabled = true ∧
          cfg.kp_alert_threshold ≤ snap.space_weather.kp then 1 else 0) ∧
    countType .KpSpike (swPart cfg now snap st).produced =
      (if cfg.space_weather_alerts_enabled = true ∧
          cfg.kp_spike_threshold ≤ snap.space_weather.kp - st.last_kp then 1 else 0) ∧
    (∀ a ∈ (swPart cfg now snap st).produced,
        a.alert_type = .KpSpike → a.severity = kpSpikeSeverity snap.space_weather.kp) ∧
    (∀ a ∈ (swPart cfg now snap st).produced, a.alert_type ≠ .SatellitePass) := by
  unfold swPart
  split
  · rename_i h
    have hc := check_sw_facts cfg now snap.space_weather st
    refine ⟨hc.1, ?_, ?_, ?_, hc.2.2.2.2.2.1, hc.2.2.2.2.2.2⟩
    · rw [hc.2.1]
    · rw [hc.2.2.2.1]
      simp [h]
    · rw [hc.2.2.2.2.1]
      simp [h]
  · rename_i h
    refine ⟨rfl, by simp [h], by simp [countType_nil, h], by simp [countType_nil, h],
      by simp, by simp⟩

theorem detect_facts (cfg : AlertConfig) (now : Timestamp) (snap : AppSnapshot)
    (st : AlertState) :
    (detect_alerts cfg now snap st).distributed =
      (detect_alerts cfg now snap st).produced.filter
        (fun a => !(a.alert_type == AlertType.Cme)) ∧
    countType .Aurora (detect_alerts cfg now snap st).produced =
      (if cfg.space_weather_alerts_enabled = true ∧
          cfg.kp_alert_threshold ≤ snap.space_weather.kp then 1 else 0) ∧
    countType .KpSpike (detect_alerts cfg now snap st).produced =
      (if cfg.space_weather_alerts_enabled = true ∧
          cfg.kp_spike_threshold ≤ snap.space_weather.kp - st.last_kp then 1 else 0) ∧
    (∀ a ∈ (detect_alerts cfg now snap st).produced,
        a.alert_type = .KpSpike → a.severity = kpSpikeSeverity snap.space_weather.kp) ∧
    (detect_alerts cfg now snap st).state.last_kp =
      (if cfg.space_weather_alerts_enabled = true
        then snap.space_weather.kp else st.last_kp) := by
  have h1 := dxPart_facts cfg now snap (st.cleanup_expired now)
  have h2 := satPart_facts cfg now snap (dxPart cfg now snap (st.cleanup_expired now)).state
  have h3 := swPart_facts cfg now snap
    (satPart cfg now snap (dxPart cfg now snap (st.cleanup_expired now)).state).state
  have hkp : (satPart cfg now snap (dxPart cfg now snap (st.cleanup_expired now)).state).state.last_kp
      = st.last_kp := by
    rw [h2.2.2, h1.2.2.1]
    rfl
  have ep : (detect_alerts cfg now snap st).produced =
      (dxPart cfg now snap (st.cleanup_expired now)).produced ++
        ((satPart cfg now snap (dxPart cfg now snap (st.cleanup_expired now)).state).produced ++
          (swPart cfg now snap
            (satPart cfg now snap
              (dxPart cfg now snap (st.cleanup_expired now)).state).state).produced) :=
    List.append_assoc _ _ _
  have ed : (detect_alerts cfg now snap st).distributed =
      (dxPart cfg now snap (st.cleanup_expired now)).distributed ++
        ((satPart cfg now snap (dxPart cfg now snap (st.cleanup_expired now)).state).distributed ++
          (swPart cfg now snap
            (satPart cfg now snap
              (dxPart cfg now snap (st.cleanup_expired now)).state).state).distributed) :=
    List.append_assoc _ _ _
  refine ⟨?_, ?_, ?_, ?_, ?_⟩
  · rw [ed, ep, List.filter_append, List.filter_append,
      filter_notCme_of_types _ (fun a ha => by simp [h1.2.1 a ha]),
      filter_notCme_of_types _ (fun a ha => by simp [h2.2.1 a ha]),
      h1.1, h2.1, h3.1]
  · rw [ep, countType_append, countType_append,
      countType_eq_zero_of _ _ (fun a ha => by simp [h1.2.1 a ha]),
      countType_eq_zero_of _ _ (fun a ha => by simp [h2.2.1 a ha]),
      h3.2.2.1]
    simp
  · rw [ep, countType_append, countType_append,
      countType_eq_zero_of _ _ (fun a ha => by simp [h1.2.1 a ha]),
      countType_eq_zero_of _ _ (fun a ha => by simp [h2.2.1 a ha]),
      h3.2.2.2.1, hkp]
    simp
  · intro a ha hty
    rw [ep] at ha
    rcases (by simpa using ha) with h | h | h
    · exact absurd (h1.2.1 a h) (by rw [hty]; simp)
    · exact absurd (h2.2.1 a h) (by rw [hty]; simp)
    · exact h3.2.2.2.2.1 a h hty
  · have es : (detect_alerts cfg now snap st).state =
        (swPart cfg now snap
          (satPart cfg now snap
            (dxPart cfg now snap (st.cleanup_expired now)).state).state).state := rfl
    rw [es, h3.2.1, hkp]

theorem detect_produced_parts (cfg : AlertConfig) (now : Timestamp) (snap : AppSnapshot)
    (st : AlertState) :
    (detect_alerts cfg now snap st).produced =
      (dxPart cfg now snap (st.cleanup_expired now)).produced ++
        ((satPart cfg now snap (dxPart cfg now snap (st.cleanup_expired now)).state).produced ++
          (swPart cfg now snap
            (satPart cfg now snap
              (dxPart cfg now snap (st.cleanup_expired now)).state).state).produced) :=
  List.append_assoc _ _ _

theorem satLoop_single (cfg : AlertConfig) (now : Timestamp) (sat : SatelliteData)
    (st : AlertState) :
    countType .SatellitePass (satLoop cfg now [sat] st).2.1 =
      if satIsWatched cfg sat = true ∧
          cfg.satellite_elevation_threshold ≤ sat.elevation ∧
          ((st.last_satellite_elevations.lookup sat.name).getD 0) <
            cfg.satellite_elevation_threshold
      then 1 else 0 := by
  by_cases hw : satIsWatched cfg sat
  · by_cases he : cfg.satellite_elevation_threshold ≤ sat.elevation
    · by_cases hp : ((st.last_satellite_elevations.lookup sat.name).getD 0) <
        cfg.satellite_elevation_threshold
      · simp [satLoop, hw, he, hp, countType_singleton, satAlert, Alert.new]
      · simp [satLoop, hw, he, hp, countType_nil]
    · simp [satLoop, hw, he, countType_nil]
  · simp [satLoop, hw, countType_nil]

/-- C4: a satellite-pass alert is produced at a cycle iff the satellite is
watched, its elevation is at or above the threshold, and its previously
recorded elevation (default 0) was below it — never while continuously
above; on the elevation trace [10,20,31,40,25,35] with threshold 30 the
per-cycle alert counts are [0,0,1,0,0,1]. -/
theorem satellite_edge_trigger :
    (∀ (cfg : AlertConfig) (now : Timestamp) (snap : AppSnapshot) (sat : SatelliteData)
        (st : AlertState),
        countType .SatellitePass
            (detect_alerts cfg now { snap with satellites := [sat] } st).produced =
          if cfg.satellite_alerts_enabled = true ∧ satIsWatched cfg sat = true ∧
              cfg.satellite_elevation_threshold ≤ sat.elevation ∧
              ((st.last_satellite_elevations.lookup sat.name).getD 0) <
                cfg.satellite_elevation_threshold
          then 1 else 0) ∧
    cycleCounts satTraceConfig .SatellitePass satSchedule AlertState.new =
      [0, 0, 1, 0, 0, 1] := by
  constructor
  · intro cfg now snap sat st
    have h1 := dxPart_facts cfg now { snap with satellites := [sat] }
      (st.cleanup_expired now)
    have h3 := swPart_facts cfg now { snap with satellites := [sat] }
      (satPart cfg now { snap with satellites := [sat] }
        (dxPart cfg now { snap with satellites := [sat] } (st.cleanup_expired now)).state).state
    rw [detect_produced_parts, countType_append, countType_append,
      countType_eq_zero_of _ _ (fun a ha => by simp [h1.2.1 a ha]),
      countType_eq_zero_of _ _ (fun a ha => h3.2.2.2.2.2 a ha)]
    have helev : (dxPart cfg now { snap with satellites := [sat] }
        (st.cleanup_expired now)).state.last_satellite_elevations =
        st.last_satellite_elevations := by
      rw [h1.2.2.2]
      rfl
    unfold satPart
    split
    · rename_i h
      show 0 + (countType .SatellitePass (satLoop cfg now [sat] _).2.1 + 0) = _
      rw [satLoop_single, helev]
      simp [h]
    · rename_i h
      simp [countType_nil, h]
  · decide

/-- C5: the aurora rule is level-triggered — whenever space-weather alerts
are enabled and Kp is at or above the alert threshold, each detection cycle
produces exactly one aurora alert, re-firing cycle after cycle; the Kp trace
[4,6,6,6,3] with threshold 5 yields 3 aurora alerts. -/
theorem aurora_level_trigger :
    (∀ (cfg : AlertConfig) (now : Timestamp) (snap : AppSnapshot) (st : AlertState),
        countType .Aurora (detect_alerts cfg now snap st).produced =
          if cfg.space_weather_alerts_enabled = true ∧
              cfg.kp_alert_threshold ≤ snap.space_weather.kp then 1 else 0) ∧
    countType .Aurora (runCycles swOnlyConfig auroraSchedule AlertState.new).2 = 3 :=
  ⟨fun cfg now snap st => (detect_facts cfg now snap st).2.1, by decide⟩


/-- C6: a Kp-spike alert is produced exactly when
`kp - last_kp >= spike_threshold` (given space-weather alerts enabled), with
severity Emergency for Kp ≥ 8, Critical for ≥ 6, Warning for ≥ 5, else
Notice; `last_kp` is set to the snapshot Kp every cycle whether or not a
spike fired; the concrete jump 3.0 → 6.5 with spike threshold 2.0 produces
one Critical Kp-spike alert whose message contains "6.5". -/
theorem kp_spike_rule :
    (∀ (cfg : AlertConfig) (now : Timestamp) (snap : AppSnapshot) (st : AlertState),
        countType .KpSpike (detect_alerts cfg now snap st).produced =
          if cfg.space_weather_alerts_enabled = true ∧
              cfg.kp_spike_threshold ≤ snap.space_weather.kp - st.last_kp
          then 1 else 0) ∧
    (∀ (cfg : AlertConfig) (now : Timestamp) (snap : AppSnapshot) (st : AlertState),
        ((detect_alerts cfg now snap st).produced.filter
            (fun a => a.alert_type == AlertType.KpSpike)).all
          (fun a => a.severity ==
            (if 8 ≤ snap.space_weather.kp then AlertSeverity.Emergency
              else if 6 ≤ snap.space_weather.kp then AlertSeverity.Critical
              else if 5 ≤ snap.space_weather.kp then AlertSeverity.Warning
              else AlertSeverity.Notice)) = true) ∧
    (∀ (cfg : AlertConfig) (now : Timestamp) (snap : AppSnapshot) (st : AlertState),
        (detect_alerts cfg now snap st).state.last_kp =
          if cfg.space_weather_alerts_enabled = true
          then snap.space_weather.kp else st.last_kp) ∧
    ((detect_alerts swOnlyConfig 60000 { space_weather := { kp := 13/2 } }
          { AlertState.new with last_kp := 3 }).produced.filter
        (fun a => a.alert_type == AlertType.KpSpike)).map
      (fun a => (a.severity, strContains a.message "6.5")) =
      [(AlertSeverity.Critical, true)] := by
  refine ⟨fun cfg now snap st => (detect_facts cfg now snap st).2.2.1, ?_,
    fun cfg now snap st => (detect_facts cfg now snap st).2.2.2.2, by decide⟩
  intro cfg now snap st
  rw [List.all_eq_true]
  intro a ha
  have hm := List.mem_filter.mp ha
  have hty : a.alert_type = .KpSpike := by simpa using hm.2
  have hsev := (detect_facts cfg now snap st).2.2.2.1 a hm.1 hty
  rw [hsev]
  simp [kpSpikeSeverity]

/-- C1 counterexample, refuting "handed to Router iff accepted by the dedup
filter" in both directions: in the first cycle the CME alert is accepted by
the Ledger but never handed to the Router (only the aurora alert is), and in
the second cycle the aurora candidate is handed to the Router even though
the dedup filter rejects it (the ledger's alerts are unchanged). -/
theorem router_handoff_cex :
    routerCexOut1.state.active_alerts.map (fun a => a.alert_type) =
      [AlertType.Aurora, AlertType.Cme] ∧
    routerCexOut1.distributed.map (fun a => a.alert_type) = [AlertType.Aurora] ∧
    routerCexOut2.distributed.map (fun a => a.alert_type) = [AlertType.Aurora] ∧
    routerCexOut2.state.active_alerts = routerCexOut1.state.active_alerts := by
  decide

/-- C1 (amended): in every detection cycle the alerts handed to the Router
are exactly the candidates produced by non-CME rules — handed over
unconditionally, before and regardless of the Ledger's dedup filter, while
CME candidates are never handed to the Router. -/
theorem router_handoff_nonCme :
    ∀ (cfg : AlertConfig) (now : Timestamp) (snap : AppSnapshot) (st : AlertState),
      (detect_alerts cfg now snap st).distributed =
        (detect_alerts cfg now snap st).produced.filter
          (fun a => !(a.alert_type == AlertType.Cme)) :=
  fun cfg now snap st => (detect_facts cfg now snap st).1

/-- C2 (code bug): on the flux trace whose classifications are
[B,B,M,M,X,X,M] with M and X watched, the code produces 5 X-ray alerts, not
the 3 the spec's change-detection demands — the comparison
`flux != last_xray_class.parse::<i32>().unwrap_or(0)` parses the stored
class letter, which always fails to 0, so the rule re-fires every cycle
with flux above 50 and a watched class. -/
theorem xray_fires_every_watched_cycle :
    xrayFluxTrace.map xrayClassOf = ["B", "B", "M", "M", "X", "X", "M"] ∧
    countType .XrayFlare (runCycles swOnlyConfig xraySchedule AlertState.new).2 = 5 := by
  constructor
  · decide
  · decide

/-! ### Lemmas for the dedup-window invariant (C3) -/

theorem is_active_antitone {a : Alert} {t t' : Timestamp} (hle : t ≤ t')
    (h : a.is_active t' = true) : a.is_active t = true := by
  simp only [Alert.is_active, Alert.is_expired, Bool.and_eq_true, Bool.not_eq_true',
    decide_eq_false_iff_not, Int.not_lt] at h ⊢
  exact ⟨le_trans hle h.1, h.2⟩

theorem dedupGapOk_mono {a b : Alert} {t t' : Timestamp} (hle : t ≤ t')
    (h : DedupGapOk t a b) : DedupGapOk t' a b :=
  fun hty ha hb => h hty (is_active_antitone hle ha) (is_active_antitone hle hb)

theorem dedupGap_mono {l : List Alert} {t t' : Timestamp} (hle : t ≤ t')
    (h : DedupGap t l) : DedupGap t' l :=
  h.imp (dedupGapOk_mono hle)

theorem tdiv_60000_lt_5_iff (d : Int) (hd : 0 ≤ d) :
    Int.tdiv d 60000 < 5 ↔ d < 300000 := by
  obtain ⟨m, rfl⟩ := Int.eq_ofNat_of_zero_le hd
  show (Int.ofNat (m / 60000)) < 5 ↔ _
  constructor
  · intro h
    have h1 : m / 60000 < 5 := Int.ofNat_lt.mp h
    have h2 : m < 300000 := by omega
    exact Int.ofNat_lt.mpr h2
  · intro h
    have h1 : m < 300000 := Int.ofNat_lt.mp h
    have h2 : m / 60000 < 5 := by omega
    exact Int.ofNat_lt.mpr h2

theorem ge_of_not_tdiv_lt (d : Int) (h : ¬ Int.tdiv d 60000 < 5) : 300000 ≤ d := by
  rcases d with m | m
  · exact Int.not_lt.mp (fun hlt => h ((tdiv_60000_lt_5_iff _ (Int.ofNat_nonneg m)).mpr hlt))
  · exfalso
    apply h
    have h2 : -((((m + 1) / 60000 : Nat) : Int)) < 5 := by omega
    exact h2

theorem dedupGap_add (now : Timestamp) (c : Alert) (st : AlertState)
    (h : DedupGap now st.active_alerts) :
    DedupGap now (st.add_alert now c).active_alerts := by
  unfold AlertState.add_alert
  dsimp only
  split
  · exact h
  · rename_i hdup
    rw [DedupGap, List.pairwise_append]
    refine ⟨h, List.pairwise_singleton _ _, ?_⟩
    intro a ha b hb
    rcases (List.mem_singleton.mp hb).symm with rfl
    intro hty hactA _
    have hnot : ¬ (a.alert_type == c.alert_type && a.is_active now &&
        decide (durationNumMinutes (c.created_at - a.created_at) < 5)) = true :=
      fun hx => hdup (List.any_eq_true.mpr ⟨a, ha, hx⟩)
    have hge : 300000 ≤ c.created_at - a.created_at :=
      ge_of_not_tdiv_lt _ (fun hlt => hnot (by simp [hty, hactA, durationNumMinutes, hlt]))
    calc (300000 : Int) ≤ c.created_at - a.created_at := hge
      _ ≤ |c.created_at - a.created_at| := le_abs_self _
      _ = |a.created_at - c.created_at| := abs_sub_comm _ _

theorem dedupGapOk_ack_right (now : Timestamp) (a x : Alert) :
    DedupGapOk now a (ackAlert x) := by
  intro _ _ hb
  exact absurd hb (by simp [ackAlert, Alert.is_active])

theorem dedupGap_ackAll (now : Timestamp) (st : AlertState) :
    DedupGap now st.acknowledge_all.active_alerts := by
  unfold AlertState.acknowledge_all
  show DedupGap now (st.active_alerts.map ackAlert)
  induction st.active_alerts with
  | nil => exact List.Pairwise.nil
  | cons a l ih =>
    refine List.Pairwise.cons ?_ ih
    intro b hb
    rcases List.mem_map.mp hb with ⟨x, _, rfl⟩
    intro _ ha
    exact absurd ha (by simp [ackAlert, Alert.is_active])

theorem dedupGap_ackLatest (now : Timestamp) (st : AlertState)
    (h : DedupGap now st.active_alerts) :
    DedupGap now st.acknowledge_latest.active_alerts := by
  unfold AlertState.acknowledge_latest
  show DedupGap now (st.active_alerts.dropLast ++ (st.active_alerts.getLast?.map ackAlert).toList)
  rw [DedupGap, List.pairwise_append]
  refine ⟨h.sublist (List.dropLast_sublist _), ?_, ?_⟩
  · rcases hx : st.active_alerts.getLast? with _ | a <;> simp [hx]
  · intro a _ b hb
    rcases (by simpa using hb :
      ∃ x, st.active_alerts.getLast? = some x ∧ ackAlert x = b) with ⟨x, _, rfl⟩
    exact dedupGapOk_ack_right now a x

theorem dedupGap_dxLoop (cfg : AlertConfig) (now : Timestamp) (spots : List DxSpot) :
    ∀ st : AlertState, DedupGap now st.active_alerts →
      DedupGap now (dxLoop cfg now spots st).1.active_alerts := by
  induction spots with
  | nil => intro st h; exact h
  | cons spot rest ih =>
    intro st h
    unfold dxLoop
    dsimp only
    split
    · exact ih st h
    · split
      · exact ih _ (dedupGap_add now _ st h)
      · exact ih st h

theorem dedupGap_satLoop (cfg : AlertConfig) (now : Timestamp) (sats : List SatelliteData) :
    ∀ st : AlertState, DedupGap now st.active_alerts →
      DedupGap now (satLoop cfg now sats st).1.active_alerts := by
  induction sats with
  | nil => intro st h; exact h
  | cons sat rest ih =>
    intro st h
    unfold satLoop
    dsimp only
    split
    · exact ih st h
    · split
      · exact ih _ (dedupGap_add now _ _ h)
      · exact ih _ h

theorem dedupGap_dxPart (cfg : AlertConfig) (now : Timestamp) (snap : AppSnapshot)
    (st : AlertState) (h : DedupGap now st.active_alerts) :
    DedupGap now (dxPart cfg now snap st).state.active_alerts := by
  unfold dxPart
  split
  · unfold check_dx_alerts
    dsimp only
    split
    · exact dedupGap_dxLoop cfg now snap.dx_spots st h
    · exact dedupGap_dxLoop cfg now snap.dx_spots st h
  · exact h

theorem dedupGap_satPart (cfg : AlertConfig) (now : Timestamp) (snap : AppSnapshot)
    (st : AlertState) (h : DedupGap now st.active_alerts) :
    DedupGap now (satPart cfg now snap st).state.active_alerts := by
  unfold satPart
  split
  · exact dedupGap_satLoop cfg now snap.satellites st h
  · exact h

theorem dedupGap_swPart (cfg : AlertConfig) (now : Timestamp) (snap : AppSnapshot)
    (st : AlertState) (h : DedupGap now st.active_alerts) :
    DedupGap now (swPart cfg now snap st).state.active_alerts := by
  have hkp : DedupGap now (kpSpikeStep cfg now snap.space_weather st).1.active_alerts := by
    unfold kpSpikeStep
    split
    · exact dedupGap_add now _ st h
    · exact h
  have hx : DedupGap now
      (xrayStep cfg now snap.space_weather
        (kpSpikeStep cfg now snap.space_weather st).1).1.active_alerts := by
    unfold xrayStep
    split
    · dsimp only
      split
      · exact dedupGap_add now _ _ hkp
      · exact hkp
    · exact hkp
  have ha : DedupGap now
      (auroraStep cfg now snap.space_weather
        (xrayStep cfg now snap.space_weather
          (kpSpikeStep cfg now snap.space_weather st).1).1).1.active_alerts := by
    unfold auroraStep
    split
    · exact dedupGap_add now _ _ hx
    · exact hx
  have hc : DedupGap now
      (cmeStep cfg now snap.space_weather
        (auroraStep cfg now snap.space_weather
          (xrayStep cfg now snap.space_weather
            (kpSpikeStep cfg now snap.space_weather st).1).1).1).1.active_alerts := by
    unfold cmeStep
    split
    · split
      · exact dedupGap_add now _ _ ha
      · exact ha
    · exact ha
  unfold swPart
  split
  · exact hc
  · exact h

theorem dedupGap_detect (cfg : AlertConfig) (now : Timestamp) (snap : AppSnapshot)
    (st : AlertState) (h : DedupGap now st.active_alerts) :
    DedupGap now (detect_alerts cfg now snap st).state.active_alerts := by
  have h0 : DedupGap now (st.cleanup_expired now).active_alerts :=
    h.sublist (List.filter_sublist _)
  exact dedupGap_swPart cfg now snap _
    (dedupGap_satPart cfg now snap _ (dedupGap_dxPart cfg now snap _ h0))

/-- C3: in every ledger state reachable by detection cycles (at
nondecreasing instants) and acknowledgments, no two active alerts of the
same type were created within the 5-minute dedup window of each other; and
`add_alert` drops a candidate exactly when a same-type, still-active alert
was created less than 5 minutes before it, appending it otherwise. -/
theorem dedup_window_invariant :
    (∀ (t0 : Timestamp) (p : AlertState × Timestamp),
        LedgerReachable t0 p → DedupGap p.2 p.1.active_alerts) ∧
    (∀ (st : AlertState) (now : Timestamp) (c : Alert),
        (∀ a ∈ st.active_alerts, a.created_at ≤ c.created_at) →
        st.add_alert now c =
          if ∃ a ∈ st.active_alerts, a.alert_type = c.alert_type ∧
              a.is_active now = true ∧ c.created_at - a.created_at < 300000
          then st
          else { st with active_alerts := st.active_alerts ++ [c] }) := by
  constructor
  · intro t0 p hreach
    unfold LedgerReachable at hreach
    induction hreach with
    | refl => exact List.Pairwise.nil
    | tail hsteps hstep ih =>
      cases hstep with
      | cycle cfg snap s t t' hle =>
        exact dedupGap_detect cfg t' snap s (dedupGap_mono hle ih)
      | ackLatest s t => exact dedupGap_ackLatest t s ih
      | ackAll s t => exact dedupGap_ackAll t s
  · intro st now c hyp
    unfold AlertState.add_alert
    dsimp only
    have hcond : (st.active_alerts.any fun a =>
        a.alert_type == c.alert_type && a.is_active now &&
          decide (durationNumMinutes (c.created_at - a.created_at) < 5)) = true ↔
        ∃ a ∈ st.active_alerts, a.alert_type = c.alert_type ∧
          a.is_active now = true ∧ c.created_at - a.created_at < 300000 := by
      rw [List.any_eq_true]
      constructor
      · rintro ⟨a, ha, hb⟩
        simp only [Bool.and_eq_true, beq_iff_eq, decide_eq_true_eq,
          durationNumMinutes] at hb
        have hd : 0 ≤ c.created_at - a.created_at := sub_nonneg.mpr (hyp a ha)
        exact ⟨a, ha, hb.1.1, hb.1.2, (tdiv_60000_lt_5_iff _ hd).mp hb.2⟩
      · rintro ⟨a, ha, h1, h2, h3⟩
        have hd : 0 ≤ c.created_at - a.created_at := sub_nonneg.mpr (hyp a ha)
        refine ⟨a, ha, ?_⟩
        simp only [Bool.and_eq_true, beq_iff_eq, decide_eq_true_eq,
          durationNumMinutes]
        exact ⟨⟨h1, h2⟩, (tdiv_60000_lt_5_iff _ hd).mpr h3⟩
    by_cases hx : ∃ a ∈ st.active_alerts, a.alert_type = c.alert_type ∧
        a.is_active now = true ∧ c.created_at - a.created_at < 300000
    · rw [if_pos (hcond.mpr hx), if_pos hx]
    · rw [if_neg (fun hh => hx (hcond.mp hh)), if_neg hx]

/-- Witness for `dedup_window_invariant`: the invariant instantiated on the
ledger reached by one concrete detection cycle, and the `add_alert` equation
instantiated at a concrete candidate on the empty ledger. -/
theorem dedup_window_invariant_witness :
    DedupGap 600000 (detect_alerts swOnlyConfig 600000
        { space_weather := { kp := 6 } } AlertState.new).state.active_alerts ∧
    AlertState.add_alert 0 (Alert.new .Aurora .Warning "w" 30 0) AlertState.new =
      { AlertState.new with
          active_alerts := [Alert.new .Aurora .Warning "w" 30 0] } := by
  constructor
  · exact dedup_window_invariant.1 0
      ((detect_alerts swOnlyConfig 600000 { space_weather := { kp := 6 } }
          AlertState.new).state, 600000)
      (Relation.ReflTransGen.single
        (LedgerStep.cycle swOnlyConfig { space_weather := { kp := 6 } }
          AlertState.new 0 600000 (by decide)))
  · have h := dedup_window_invariant.2 AlertState.new 0
      (Alert.new .Aurora .Warning "w" 30 0) (by simp [AlertState.new])
    rw [h, if_neg (by simp [AlertState.new])]
    simp [AlertState.new]

end HamClock
